import Mathlib

/-!
Verification development for the CheckTruth food-analysis service.

The Python sources (`src/app.py` and `src/backend/app.py`) are shallowly
embedded below.  Nutrient quantities are modelled as rationals (`ℚ`); every
penalty, bonus and score in the Python code is integer-valued, so scores are
modelled as `ℤ`.  Fallible external interactions (the FDA lookup) are modelled
by passing the outcome of the external call as an explicit argument.
-/

namespace CheckTruth

/-- `NutrientProfile` — the fully populated nutrition mapping produced by
`extract_nutrition_facts` (src/app.py lines 132-148): fixed keys, float
values. -/
structure NutrientProfile where
  calories : ℚ
  protein : ℚ
  carbohydrates : ℚ
  sugars : ℚ
  added_sugars : ℚ
  fiber : ℚ
  fat : ℚ
  saturated_fat : ℚ
  trans_fat : ℚ
  cholesterol : ℚ
  sodium : ℚ
  potassium : ℚ
  calcium : ℚ
  iron : ℚ
  vitamin_c : ℚ
deriving DecidableEq

/-- A flagged chemical as consumed by `calculate_health_score`
(src/app.py lines 315-334): `risk_level` string and the four macro hints read
from `chem['macros']` with `.get(…, 0)` defaults. -/
structure FlaggedChemical where
  name : String
  cause : String
  avoid : String
  risk_level : String
  sugars_per_100g : ℚ
  saturated_fat_per_100g : ℚ
  trans_fat_per_100g : ℚ
  sodium_per_100g : ℚ
deriving DecidableEq

/-- `Config.NUTRITION_THRESHOLDS['sugars']` (src/app.py lines 36-41), in the
order the `if`/`elif` chain of lines 244-251 consults it. -/
def sugarsTiers : List (ℚ × ℤ) := [(30, 40), (20, 30), (10, 20), (5, 10)]

/-- `Config.NUTRITION_THRESHOLDS['saturated_fat']` (src/app.py lines 42-46). -/
def satFatTiers : List (ℚ × ℤ) := [(10, 20), (5, 15), (2, 8)]

/-- `Config.NUTRITION_THRESHOLDS['trans_fat']` (src/app.py lines 47-50). -/
def transFatTiers : List (ℚ × ℤ) := [(1/10, 25), (1/1000, 15)]

/-- `Config.NUTRITION_THRESHOLDS['sodium']` (src/app.py lines 51-55). -/
def sodiumTiers : List (ℚ × ℤ) := [(3/2, 20), (4/5, 15), (3/10, 8)]

/-- `Config.NUTRITION_THRESHOLDS['calories']` (src/app.py lines 56-60). -/
def caloriesTiers : List (ℚ × ℤ) := [(500, 20), (400, 15), (300, 10)]

/-- The `if v > t₁: pen p₁ elif v > t₂: pen p₂ … else: nothing` chains of
src/app.py lines 242-285, evaluated against a tier table in table order.
Result `0` means "no penalty appended". -/
def tierPenalty : List (ℚ × ℤ) → ℚ → ℤ
  | [], _ => 0
  | (t, p) :: rest, v => if v > t then p else tierPenalty rest v

/-- Spec-side reading of the penalty stage (spec §4.4b): `pen` is the penalty
of the single highest tier of `tiers` whose threshold the value strictly
exceeds — one tier only, never a sum of tiers — or 0 when no threshold is
exceeded. -/
def IsHighestTierPenalty (tiers : List (ℚ × ℤ)) (v : ℚ) (pen : ℤ) : Prop :=
  (∃ tp ∈ tiers, v > tp.1 ∧ pen = tp.2 ∧ ∀ tq ∈ tiers, v > tq.1 → tq.1 ≤ tp.1)
  ∨ ((∀ tp ∈ tiers, ¬v > tp.1) ∧ pen = 0)

/-- Protein bonus chain (src/app.py lines 290-295). -/
def proteinBonus (protein : ℚ) : ℤ :=
  if protein > 10 then 15
  else if protein > 6 then 10
  else if protein > 3 then 5
  else 0

/-- Fiber bonus chain (src/app.py lines 298-305). -/
def fiberBonus (fiber : ℚ) : ℤ :=
  if fiber > 8 then 20
  else if fiber > 5 then 15
  else if fiber > 3 then 8
  else if fiber > 1 then 3
  else 0

/-- Balanced-nutrition bonus (src/app.py lines 308-310). -/
def balancedBonus (protein fiber sugars satFat : ℚ) : ℤ :=
  if 4 < protein ∧ protein < 15 ∧ 2 < fiber ∧ fiber < 10 ∧
      sugars < 10 ∧ satFat < 3 then 10 else 0

/-- Per-chemical contribution to `chemical_penalty`
(src/app.py lines 315-334). -/
def chemicalRiskPenalty (c : FlaggedChemical) : ℤ :=
  (if c.risk_level = "high" then 15
   else if c.risk_level = "medium" then 10
   else 5)
  + (if c.sugars_per_100g > 50 then 5 else 0)
  + (if c.saturated_fat_per_100g > 20 then 5 else 0)
  + (if c.trans_fat_per_100g > 1/10 then 10 else 0)
  + (if c.sodium_per_100g > 1000 then 3 else 0)

/-- Accumulated chemical penalty, capped at 40 (src/app.py lines 314-337). -/
def chemicalPenalty (chems : List FlaggedChemical) : ℤ :=
  min 40 ((chems.map chemicalRiskPenalty).sum)

/-- `sum(penalties)` of src/app.py line 344: the five nutrient tier penalties
plus the capped chemical penalty (line 338 appends it to `penalties`).
`sodium` is divided by 1000 first (line 234). -/
def totalPenalties (n : NutrientProfile) (chems : List FlaggedChemical) : ℤ :=
  tierPenalty sugarsTiers n.sugars
  + tierPenalty satFatTiers n.saturated_fat
  + tierPenalty transFatTiers n.trans_fat
  + tierPenalty sodiumTiers (n.sodium / 1000)
  + tierPenalty caloriesTiers n.calories
  + chemicalPenalty chems

/-- `sum(bonuses)` of src/app.py line 343. -/
def totalBonuses (n : NutrientProfile) : ℤ :=
  proteinBonus n.protein + fiberBonus n.fiber
  + balancedBonus n.protein n.fiber n.sugars n.saturated_fat

/-- One auto-fail override step `if cond: score = min(score, k)`
(src/app.py lines 348-364). -/
def capIf (c : Prop) [Decidable c] (k s : ℤ) : ℤ :=
  if c then min s k else s

/-- Score after the four auto-fail `min` overrides (src/app.py
lines 342-364): `base_score = 50` plus bonuses minus penalties, then the four
conditional ceilings in source order (innermost applied first). -/
def cappedScore (n : NutrientProfile) (chems : List FlaggedChemical) : ℤ :=
  capIf (chems.length ≥ 5) 20
    (capIf (n.fat > 35 ∧ n.fiber < 2) 30
      (capIf (n.trans_fat > 3/10) 20
        (capIf (n.sugars > 25 ∧ n.protein + n.fiber < 3) 25
          (50 + totalBonuses n - totalPenalties n chems))))

/-- `calculate_health_score` (src/app.py lines 222-390): final clamp
`max(0, min(100, int(score)))` (line 367; `score` is already integral, so
`int` is the identity) and the status cascade of lines 372-385 (labels
without their emoji prefixes). -/
def calculate_health_score (n : NutrientProfile) (chems : List FlaggedChemical) :
    ℤ × String :=
  let score := max 0 (min 100 (cappedScore n chems))
  let status :=
    if n.trans_fat > 1/1000 then "Contains Trans Fats"
    else if n.sugars > 20 ∧ n.protein < 5 then "High Sugar Warning"
    else if score ≥ 85 then "Excellent Choice"
    else if score ≥ 70 then "Good Choice"
    else if score ≥ 50 then "Average"
    else if score ≥ 35 then "Unhealthy"
    else "Very Unhealthy"
  (score, status)

/-- The all-zero nutrition profile (what `extract_nutrition_facts` yields on a
product with no nutriments data); used as a concrete evaluation point. -/
def zeroProfile : NutrientProfile :=
  ⟨0, 0, 0, 0, 0, 0, 0, 0, 0, 0, 0, 0, 0, 0, 0⟩

/-- A raw nutriment value as seen by `safe_float` (src/app.py lines 99-108):
JSON null, a value convertible by Python `float(…)` (numbers and numeric
strings, carried here as the converted rational), or a value on which
`float(…)` raises `TypeError`/`ValueError` (non-numeric strings, lists,
objects). -/
inductive RawValue
  | null
  | num (q : ℚ)
  | nonNumeric
deriving DecidableEq

/-- A raw product record: `product.get('nutriments', {})`
(src/app.py line 130) — `none` models a product without a `nutriments`
object. -/
structure RawProduct where
  nutriments : Option (List (String × RawValue))
deriving DecidableEq

/-- `nutriments.get(key)`: `none` when the key is absent. -/
def getNutriment (m : List (String × RawValue)) (k : String) : Option RawValue :=
  (m.find? fun kv => kv.1 == k).map fun kv => kv.2

/-- `safe_float` (src/app.py lines 99-108) at its call sites in
`extract_nutrition_facts`, where the default is always 0.0: `None` (missing
key or JSON null) and conversion failures yield the default; convertible
values yield the converted float, unclamped. -/
def safe_float : Option RawValue → ℚ
  | none => 0
  | some .null => 0
  | some (.num q) => q
  | some .nonNumeric => 0

/-- `extract_nutrition_facts` (src/app.py lines 128-150). -/
def extract_nutrition_facts (p : RawProduct) : NutrientProfile :=
  let m := p.nutriments.getD []
  { calories := safe_float (getNutriment m "energy-kcal_100g")
    protein := safe_float (getNutriment m "proteins_100g")
    carbohydrates := safe_float (getNutriment m "carbohydrates_100g")
    sugars := safe_float (getNutriment m "sugars_100g")
    added_sugars := safe_float (getNutriment m "added-sugars_100g")
    fiber := safe_float (getNutriment m "fiber_100g")
    fat := safe_float (getNutriment m "fat_100g")
    saturated_fat := safe_float (getNutriment m "saturated-fat_100g")
    trans_fat := safe_float (getNutriment m "trans-fat_100g")
    cholesterol := safe_float (getNutriment m "cholesterol_100g")
    sodium := safe_float (getNutriment m "sodium_100g")
    potassium := safe_float (getNutriment m "potassium_100g")
    calcium := safe_float (getNutriment m "calcium_100g")
    iron := safe_float (getNutriment m "iron_100g")
    vitamin_c := safe_float (getNutriment m "vitamin-c_100g") }

/-- True unless the value is a convertible number that is negative. -/
def rawNonneg : RawValue → Bool
  | .num q => decide (0 ≤ q)
  | _ => true

/-- Every convertible numeric value in the product's nutriments is
non-negative. -/
def NonnegSource (p : RawProduct) : Prop :=
  ∀ kv ∈ p.nutriments.getD [], rawNonneg kv.2 = true

/-- The fifteen nutrient values of a profile, in source order. -/
def profileFields (n : NutrientProfile) : List ℚ :=
  [n.calories, n.protein, n.carbohydrates, n.sugars, n.added_sugars, n.fiber,
   n.fat, n.saturated_fat, n.trans_fat, n.cholesterol, n.sodium, n.potassium,
   n.calcium, n.iron, n.vitamin_c]

/-- A product whose upstream record reports a negative sugars value. -/
def negativeSugarsProduct : RawProduct :=
  ⟨some [("sugars_100g", RawValue.num (-5))]⟩

/-- A well-formed sample product: one numeric field, one null, one
non-numeric. -/
def sampleProduct : RawProduct :=
  ⟨some [("sugars_100g", RawValue.num 12), ("proteins_100g", RawValue.null),
    ("fat_100g", RawValue.nonNumeric)]⟩

/-- Python `str.lower()` on this ASCII domain: per-character lowercasing. -/
def pyLower (s : List Char) : List Char := s.map Char.toLower

/-- Python substring containment `needle in haystack`. -/
def containsSub : List Char → List Char → Bool
  | n, [] => n.isPrefixOf []
  | n, c :: t => n.isPrefixOf (c :: t) || containsSub n t

/-- A `HARMFUL_CHEMICALS` entry's `details` dict as read by
`detect_harmful_chemicals` (src/app.py lines 161-173); a non-dict value
(modelled by `none` at the use site) is skipped.  The `.get` defaults
('Unknown health concern', 'General population', 'medium', empty macros) are
applied when the record is built. -/
structure ChemicalDetails where
  cause : String
  avoid : String
  risk_level : String
  sugars_per_100g : ℚ
  saturated_fat_per_100g : ℚ
  trans_fat_per_100g : ℚ
  sodium_per_100g : ℚ
deriving DecidableEq

/-- `detect_harmful_chemicals` (src/app.py lines 153-177): guard against
empty text, then for each registered entry with dict details, flag it when
the lower-cased name occurs as a (naive) substring of the lower-cased
ingredient text, in table order. -/
def detect_harmful_chemicals (db : List (String × Option ChemicalDetails))
    (ingredients_text : String) : List FlaggedChemical :=
  if ingredients_text.data = [] then []
  else
    db.filterMap fun nd =>
      match nd.2 with
      | none => none
      | some d =>
        if containsSub (pyLower nd.1.data) (pyLower ingredients_text.data) then
          some ⟨nd.1, d.cause, d.avoid, d.risk_level, d.sugars_per_100g,
            d.saturated_fat_per_100g, d.trans_fat_per_100g, d.sodium_per_100g⟩
        else none

/-- Python regex word character `\w` (ASCII fragment, adequate for this
chemical table). -/
def isWordChar (c : Char) : Bool := c.isAlphanum || c = '_'

def wordOpt : Option Char → Bool
  | none => false
  | some c => isWordChar c

/-- Match of `\b` + escaped key + `\b` at position `i` of `text`, for a
nonempty key: the key occurs literally at `i`, and the word-character status
changes across each of its two ends (positions outside the text count as
non-word). -/
def boundaryMatchAt (key text : List Char) (i : ℕ) : Bool :=
  key.isPrefixOf (text.drop i) &&
    (wordOpt (text.take i).getLast? != wordOpt key.head?) &&
    (wordOpt key.getLast? != wordOpt (text.drop (i + key.length)).head?)

/-- `re.search(r'\b' + re.escape(key) + r'\b', text)`
(src/backend/app.py line 92), for nonempty keys: some position matches. -/
def reWordSearch (key text : List Char) : Bool :=
  (List.range (text.length + 1)).any (boundaryMatchAt key text)

/-- One entry of the backend's `HARMFUL_CHEMICALS` table: the dict key that
is matched against the text, plus the fields of `info` that the backend
reads. -/
structure BackendChemical where
  key : String
  name : String
  cause : String
  diseases_to_avoid : List String
deriving DecidableEq

/-- The local-chemical loop of the backend `analyze_food`
(src/backend/app.py lines 89-101): flag the entries whose key word-matches
the lower-cased ingredient text, in table order. -/
def backendDetect (db : List BackendChemical) (ingredients_text : String) :
    List BackendChemical :=
  db.filter fun c => reWordSearch c.key.data (pyLower ingredients_text.data)

/-- A details record carrying only the `.get` defaults. -/
def garDetails : ChemicalDetails :=
  ⟨"Unknown health concern", "General population", "medium", 0, 0, 0, 0⟩

/-- The keyword-to-warning derivation applied to one flagged chemical's
`cause` text (src/app.py lines 185-201): substring tests against the
lower-cased cause, one warning label per matched keyword group. -/
def causeWarnings (cause : String) : Finset String :=
  let cl := pyLower cause.data
  (if containsSub "cancer".data cl || containsSub "carcinogen".data cl then
    {"Cancer Risk"} else ∅) ∪
  (if containsSub "diabetes".data cl || containsSub "blood sugar".data cl then
    {"Diabetes Risk"} else ∅) ∪
  (if containsSub "heart".data cl || containsSub "cardiovascular".data cl then
    {"Heart Disease"} else ∅) ∪
  (if containsSub "obesity".data cl || containsSub "weight gain".data cl then
    {"Obesity Risk"} else ∅) ∪
  (if containsSub "allerg".data cl then {"Allergic Reactions"} else ∅) ∪
  (if containsSub "kidney".data cl then {"Kidney Issues"} else ∅) ∪
  (if containsSub "liver".data cl then {"Liver Damage"} else ∅)

/-- The nutrition-threshold warnings (src/app.py lines 203-217), independent
of any flagged chemical. -/
def nutritionWarnings (n : NutrientProfile) : Finset String :=
  (if n.trans_fat > 1/10 then {"Heart Disease"} else ∅) ∪
  (if n.sugars > 25 then {"Diabetes Risk", "Obesity Risk"} else ∅) ∪
  (if n.sodium > 1500 then {"High Blood Pressure", "Heart Disease"} else ∅) ∪
  (if n.saturated_fat > 10 then {"High Cholesterol", "Heart Disease"} else ∅)

/-- `generate_disease_warnings` (src/app.py lines 180-219): a `set` of labels
accumulated from chemicals and nutrition, returned as `sorted(list(…))`. -/
def generate_disease_warnings (chems : List FlaggedChemical)
    (n : NutrientProfile) : List String :=
  ((chems.foldl (fun (acc : Finset String) (c : FlaggedChemical) =>
    acc ∪ causeWarnings c.cause) ∅) ∪ nutritionWarnings n).sort (· ≤ ·)

/-- The backend's `disease_warnings` (src/backend/app.py lines 86-101, 140):
the `set` union of `diseases_to_avoid` over locally flagged entries, returned
as `sorted(list(…))`. -/
def backendDiseaseWarnings (db : List BackendChemical) (text : String) :
    List String :=
  ((backendDetect db text).foldl
    (fun (acc : Finset String) (c : BackendChemical) =>
      acc ∪ c.diseases_to_avoid.toFinset) ∅).sort (· ≤ ·)

/-- Outcome of the external FDA call in `check_fda_adverse_events`: a
successful response carrying `meta.results.total` (`none` when absent, so
`.get` defaults it to 0), a timeout (`requests.exceptions.Timeout`), another
request failure (`requests.exceptions.RequestException`: HTTP error status,
network failure, malformed JSON body) with its message, or any other
exception (e.g. an unexpected response shape). -/
inductive FdaOutcome
  | success (total : Option ℤ)
  | timeout
  | requestError (msg : String)
  | otherError
deriving DecidableEq

/-- Python `str.strip()`: drop leading and trailing whitespace. -/
def stripChars (s : List Char) : List Char :=
  ((s.dropWhile Char.isWhitespace).reverse.dropWhile Char.isWhitespace).reverse

/-- `re.sub(r'[^a-z\s]', '', ingredient_name.lower()).strip()`
(src/app.py line 403). -/
def cleanName (s : String) : List Char :=
  stripChars ((pyLower s.data).filter fun c => ('a' ≤ c && c ≤ 'z') || c.isWhitespace)

/-- `re.sub(r'[^a-z\s]', '', ingredient_name).strip()`
(src/backend/app.py line 33) — the backend variant does not lower-case. -/
def backendCleanName (s : String) : List Char :=
  stripChars (s.data.filter fun c => ('a' ≤ c && c ≤ 'z') || c.isWhitespace)

/-- `check_fda_adverse_events` (src/app.py lines 393-439), with the outcome
of the external call passed explicitly.  The three `except` arms (lines
431-439) cover every failure, so the function is total: no exception
propagates. -/
def check_fda_adverse_events (ingredient_name : String) (outcome : FdaOutcome) :
    Bool × String :=
  if ingredient_name.data = [] then (false, "")
  else if cleanName ingredient_name = [] then (false, "")
  else
    match outcome with
    | .success total? =>
      let totalReports := total?.getD 0
      if totalReports > 0 then
        (true, "FDA Adverse Event Reports: " ++ toString totalReports)
      else (false, "")
    | .timeout => (false, "FDA API timeout")
    | .requestError m => (false, "FDA API error: " ++ m)
    | .otherError => (false, "")

/-- The backend `check_fda_adverse_events` (src/backend/app.py lines 26-60):
a single bare `except Exception` arm maps every failure to `(False, "")`. -/
def backend_check_fda (ingredient_name : String) (outcome : FdaOutcome) :
    Bool × String :=
  if backendCleanName ingredient_name = [] then (false, "")
  else
    match outcome with
    | .success total? =>
      if total?.getD 0 > 0 then
        (true, "FDA Adverse Event Reports found (" ++ toString (total?.getD 0) ++ ").")
      else (false, "")
    | .timeout => (false, "")
    | .requestError _ => (false, "")
    | .otherError => (false, "")

/-- The external call failed (timeout, network/HTTP/decode error, or any
other exception). -/
def isFdaFailure : FdaOutcome → Bool
  | .success _ => false
  | _ => true

theorem calculate_health_score_fst (n : NutrientProfile) (chems : List FlaggedChemical) :
    (calculate_health_score n chems).1 = max 0 (min 100 (cappedScore n chems)) := rfl

theorem capIf_le_self (c : Prop) [Decidable c] (k s : ℤ) : capIf c k s ≤ s := by
  unfold capIf
  split_ifs
  · exact min_le_left s k
  · exact le_rfl

theorem capIf_le_of_holds {c : Prop} [Decidable c] (hc : c) (k s : ℤ) :
    capIf c k s ≤ k := by
  unfold capIf
  rw [if_pos hc]
  exact min_le_right s k

theorem capIf_mono {c c' : Prop} [Decidable c] [Decidable c'] {k s s' : ℤ}
    (hs : s' ≤ s) (hc : c → c') : capIf c' k s' ≤ capIf c k s := by
  unfold capIf
  by_cases h1 : c
  · rw [if_pos h1, if_pos (hc h1)]
    exact min_le_min hs le_rfl
  · rw [if_neg h1]
    by_cases h2 : c'
    · rw [if_pos h2]
      exact le_trans (min_le_left s' k) hs
    · rw [if_neg h2]
      exact hs

/-- C1: for every NutrientProfile and every flagged-chemical list, the score
returned by `calculate_health_score` lies in the closed interval [0, 100]:
the final step truncates to integer and clamps with `max(0, min(100, ·))`. -/
theorem score_in_range (n : NutrientProfile) (chems : List FlaggedChemical) :
    0 ≤ (calculate_health_score n chems).1 ∧
      (calculate_health_score n chems).1 ≤ 100 := by
  rw [calculate_health_score_fst]
  exact ⟨le_max_left 0 _, max_le (by norm_num) (min_le_left 100 _)⟩

/-- C4: whenever trans_fat exceeds the severe threshold 0.3 of the auto-fail
check (src/app.py lines 354-356), the final score is at most 20, regardless
of the bonuses: the later `min` overrides and the final clamp can only keep
the score at or below that ceiling. -/
theorem trans_fat_auto_fail (n : NutrientProfile) (chems : List FlaggedChemical)
    (h : n.trans_fat > 3/10) : (calculate_health_score n chems).1 ≤ 20 := by
  have hcap : cappedScore n chems ≤ 20 := by
    unfold cappedScore
    refine le_trans (capIf_le_self _ _ _) (le_trans (capIf_le_self _ _ _) ?_)
    exact capIf_le_of_holds h _ _
  rw [calculate_health_score_fst]
  exact max_le (by norm_num) (le_trans (min_le_right 100 _) hcap)

/-- Witness for C4: a profile with trans_fat = 1 and otherwise excellent
nutrients (high protein and fiber, no flagged chemicals) still scores ≤ 20. -/
theorem trans_fat_auto_fail_witness :
    ({ zeroProfile with trans_fat := 1, protein := 12, fiber := 9 } :
        NutrientProfile).trans_fat > 3/10 ∧
      (calculate_health_score
        { zeroProfile with trans_fat := 1, protein := 12, fiber := 9 } []).1 ≤ 20 :=
  ⟨by norm_num [zeroProfile],
   trans_fat_auto_fail { zeroProfile with trans_fat := 1, protein := 12, fiber := 9 } []
     (by norm_num [zeroProfile])⟩

/-- C10: the fourth `min` override (src/app.py lines 358-360): fat > 35
together with fiber < 2 caps the final score at 30 even with otherwise
excellent nutrients and no flagged chemicals. -/
theorem high_fat_low_fiber_auto_fail (n : NutrientProfile) (chems : List FlaggedChemical)
    (h : n.fat > 35 ∧ n.fiber < 2) : (calculate_health_score n chems).1 ≤ 30 := by
  have hcap : cappedScore n chems ≤ 30 := by
    unfold cappedScore
    exact le_trans (capIf_le_self _ _ _) (capIf_le_of_holds h _ _)
  rw [calculate_health_score_fst]
  exact max_le (by norm_num) (le_trans (min_le_right 100 _) hcap)

/-- Witness for C10: fat = 40, fiber = 0, high protein, no chemicals:
score ≤ 30. -/
theorem high_fat_low_fiber_auto_fail_witness :
    (({ zeroProfile with fat := 40, protein := 12 } : NutrientProfile).fat > 35 ∧
        ({ zeroProfile with fat := 40, protein := 12 } : NutrientProfile).fiber < 2) ∧
      (calculate_health_score { zeroProfile with fat := 40, protein := 12 } []).1 ≤ 30 :=
  ⟨⟨by norm_num [zeroProfile], by norm_num [zeroProfile]⟩,
   high_fat_low_fiber_auto_fail { zeroProfile with fat := 40, protein := 12 } []
     ⟨by norm_num [zeroProfile], by norm_num [zeroProfile]⟩⟩

/-- C8: `calculate_health_score` is pure and deterministic: it reads nothing
but its two arguments (the `Config` tier tables are process constants), so
identical (nutrition_facts, flagged_chemicals) inputs yield the identical
(score, status) pair. -/
theorem score_deterministic (n n' : NutrientProfile)
    (chems chems' : List FlaggedChemical) (h1 : n = n') (h2 : chems = chems') :
    calculate_health_score n chems = calculate_health_score n' chems' := by
  rw [h1, h2]

/-- Witness for C8: two calls on the all-zero profile with no chemicals
agree. -/
theorem score_deterministic_witness :
    calculate_health_score zeroProfile [] = calculate_health_score zeroProfile [] :=
  score_deterministic zeroProfile zeroProfile [] [] rfl rfl

theorem tierPenalty_isHighest (tiers : List (ℚ × ℤ)) (v : ℚ)
    (hd : tiers.Pairwise (fun a b => b.1 < a.1)) :
    IsHighestTierPenalty tiers v (tierPenalty tiers v) := by
  induction tiers with
  | nil => exact Or.inr ⟨by simp, rfl⟩
  | cons tp rest ih =>
    obtain ⟨t, p⟩ := tp
    rw [List.pairwise_cons] at hd
    obtain ⟨hhead, hrest⟩ := hd
    by_cases hv : v > t
    · left
      refine ⟨(t, p), List.mem_cons_self _ _, hv, by simp [tierPenalty, hv], ?_⟩
      intro tq htq _
      rcases List.mem_cons.mp htq with h | h
      · rw [h]
      · exact le_of_lt (hhead tq h)
    · have hpen : tierPenalty ((t, p) :: rest) v = tierPenalty rest v := by
        simp [tierPenalty, hv]
      rw [hpen]
      rcases ih hrest with ⟨tq, hmem, hgt, hpeq, hmax⟩ | ⟨hnone, hzero⟩
      · left
        refine ⟨tq, List.mem_cons_of_mem _ hmem, hgt, hpeq, ?_⟩
        intro tr htr hgtr
        rcases List.mem_cons.mp htr with h | h
        · rw [h] at hgtr
          exact absurd hgtr hv
        · exact hmax tr h hgtr
      · right
        refine ⟨?_, hzero⟩
        intro tq htq
        rcases List.mem_cons.mp htq with h | h
        · rw [h]
          exact hv
        · exact hnone tq h

theorem tierPenalty_le_bound (p : ℤ) {v : ℚ} : ∀ tiers : List (ℚ × ℤ),
    0 ≤ p → (∀ tp ∈ tiers, tp.2 ≤ p) → tierPenalty tiers v ≤ p := by
  intro tiers
  induction tiers with
  | nil =>
    intro hp _
    exact hp
  | cons tq rest ih =>
    intro hp h
    obtain ⟨t, q⟩ := tq
    simp only [tierPenalty]
    split_ifs with hv
    · exact h (t, q) (List.mem_cons_self _ _)
    · exact ih hp fun tr htr => h tr (List.mem_cons_of_mem _ htr)

theorem tierPenalty_mono {v v' : ℚ} (hv : v ≤ v') : ∀ tiers : List (ℚ × ℤ),
    (∀ tp ∈ tiers, 0 ≤ tp.2) →
    tiers.Pairwise (fun a b => b.1 < a.1 ∧ b.2 ≤ a.2) →
    tierPenalty tiers v ≤ tierPenalty tiers v' := by
  intro tiers
  induction tiers with
  | nil =>
    intro _ _
    exact le_rfl
  | cons tp rest ih =>
    intro hnn hd
    obtain ⟨t, p⟩ := tp
    rw [List.pairwise_cons] at hd
    obtain ⟨hhead, hrest⟩ := hd
    simp only [tierPenalty]
    by_cases h2 : v' > t
    · rw [if_pos h2]
      by_cases h1 : v > t
      · rw [if_pos h1]
      · rw [if_neg h1]
        exact tierPenalty_le_bound p rest (hnn (t, p) (List.mem_cons_self _ _))
          fun tq htq => (hhead tq htq).2
    · have h1 : ¬v > t := fun hgt => h2 (lt_of_lt_of_le hgt hv)
      rw [if_neg h1, if_neg h2]
      exact ih (fun tq htq => hnn tq (List.mem_cons_of_mem _ htq)) hrest

theorem balancedBonus_anti_sugars (p f sf : ℚ) {s s' : ℚ} (h : s ≤ s') :
    balancedBonus p f s' sf ≤ balancedBonus p f s sf := by
  unfold balancedBonus
  by_cases hc : 4 < p ∧ p < 15 ∧ 2 < f ∧ f < 10 ∧ s' < 10 ∧ sf < 3
  · rw [if_pos hc, if_pos ⟨hc.1, hc.2.1, hc.2.2.1, hc.2.2.2.1,
      lt_of_le_of_lt h hc.2.2.2.2.1, hc.2.2.2.2.2⟩]
  · rw [if_neg hc]
    split_ifs <;> norm_num

theorem balancedBonus_anti_satFat (p f s : ℚ) {sf sf' : ℚ} (h : sf ≤ sf') :
    balancedBonus p f s sf' ≤ balancedBonus p f s sf := by
  unfold balancedBonus
  by_cases hc : 4 < p ∧ p < 15 ∧ 2 < f ∧ f < 10 ∧ s < 10 ∧ sf' < 3
  · rw [if_pos hc, if_pos ⟨hc.1, hc.2.1, hc.2.2.1, hc.2.2.2.1, hc.2.2.2.2.1,
      lt_of_le_of_lt h hc.2.2.2.2.2⟩]
  · rw [if_neg hc]
    split_ifs <;> norm_num

theorem score_fst_mono_of_capped {n1 n2 : NutrientProfile}
    {chems : List FlaggedChemical}
    (h : cappedScore n2 chems ≤ cappedScore n1 chems) :
    (calculate_health_score n2 chems).1 ≤ (calculate_health_score n1 chems).1 := by
  rw [calculate_health_score_fst, calculate_health_score_fst]
  exact max_le_max le_rfl (min_le_min le_rfl h)

/-- C6: with all other nutrients and the flagged-chemical list fixed,
increasing any single penalized nutrient (sugars, saturated_fat, trans_fat,
sodium, calories) never increases the final score: tier penalties are
monotone, the balanced-nutrition bonus can only switch off, and the auto-fail
conditions can only switch on. -/
theorem score_antitone_in_penalized_nutrients (n : NutrientProfile)
    (chems : List FlaggedChemical) (v v' : ℚ) (hv : v ≤ v') :
    (calculate_health_score { n with sugars := v' } chems).1 ≤
        (calculate_health_score { n with sugars := v } chems).1 ∧
    (calculate_health_score { n with saturated_fat := v' } chems).1 ≤
        (calculate_health_score { n with saturated_fat := v } chems).1 ∧
    (calculate_health_score { n with trans_fat := v' } chems).1 ≤
        (calculate_health_score { n with trans_fat := v } chems).1 ∧
    (calculate_health_score { n with sodium := v' } chems).1 ≤
        (calculate_health_score { n with sodium := v } chems).1 ∧
    (calculate_health_score { n with calories := v' } chems).1 ≤
        (calculate_health_score { n with calories := v } chems).1 := by
  refine ⟨?_, ?_, ?_, ?_, ?_⟩
  · apply score_fst_mono_of_capped
    have h1 : tierPenalty sugarsTiers v ≤ tierPenalty sugarsTiers v' :=
      tierPenalty_mono hv sugarsTiers
        (by norm_num [sugarsTiers, List.forall_mem_cons])
        (by norm_num [sugarsTiers, List.pairwise_cons])
    have h2 := balancedBonus_anti_sugars n.protein n.fiber n.saturated_fat hv
    unfold cappedScore totalPenalties totalBonuses
    dsimp only
    refine capIf_mono (capIf_mono (capIf_mono (capIf_mono (by omega) ?_)
      (fun h => h)) (fun h => h)) (fun h => h)
    exact fun hc => ⟨lt_of_lt_of_le hc.1 hv, hc.2⟩
  · apply score_fst_mono_of_capped
    have h1 : tierPenalty satFatTiers v ≤ tierPenalty satFatTiers v' :=
      tierPenalty_mono hv satFatTiers
        (by norm_num [satFatTiers, List.forall_mem_cons])
        (by norm_num [satFatTiers, List.pairwise_cons])
    have h2 := balancedBonus_anti_satFat n.protein n.fiber n.sugars hv
    unfold cappedScore totalPenalties totalBonuses
    dsimp only
    refine capIf_mono (capIf_mono (capIf_mono (capIf_mono (by omega)
      (fun h => h)) (fun h => h)) (fun h => h)) (fun h => h)
  · apply score_fst_mono_of_capped
    have h1 : tierPenalty transFatTiers v ≤ tierPenalty transFatTiers v' :=
      tierPenalty_mono hv transFatTiers
        (by norm_num [transFatTiers, List.forall_mem_cons])
        (by norm_num [transFatTiers, List.pairwise_cons])
    unfold cappedScore totalPenalties totalBonuses
    dsimp only
    refine capIf_mono (capIf_mono (capIf_mono (capIf_mono (by omega)
      (fun h => h)) ?_) (fun h => h)) (fun h => h)
    exact fun hc => lt_of_lt_of_le hc hv
  · apply score_fst_mono_of_capped
    have h1 : tierPenalty sodiumTiers (v / 1000) ≤ tierPenalty sodiumTiers (v' / 1000) :=
      tierPenalty_mono (by linarith) sodiumTiers
        (by norm_num [sodiumTiers, List.forall_mem_cons])
        (by norm_num [sodiumTiers, List.pairwise_cons])
    unfold cappedScore totalPenalties totalBonuses
    dsimp only
    refine capIf_mono (capIf_mono (capIf_mono (capIf_mono (by omega)
      (fun h => h)) (fun h => h)) (fun h => h)) (fun h => h)
  · apply score_fst_mono_of_capped
    have h1 : tierPenalty caloriesTiers v ≤ tierPenalty caloriesTiers v' :=
      tierPenalty_mono hv caloriesTiers
        (by norm_num [caloriesTiers, List.forall_mem_cons])
        (by norm_num [caloriesTiers, List.pairwise_cons])
    unfold cappedScore totalPenalties totalBonuses
    dsimp only
    refine capIf_mono (capIf_mono (capIf_mono (capIf_mono (by omega)
      (fun h => h)) (fun h => h)) (fun h => h)) (fun h => h)

/-- Witness for C6: raising each penalized nutrient from 5 to 50 on the
all-zero profile never raises the score. -/
theorem score_antitone_witness :
    (calculate_health_score { zeroProfile with sugars := 50 } []).1 ≤
        (calculate_health_score { zeroProfile with sugars := 5 } []).1 ∧
    (calculate_health_score { zeroProfile with saturated_fat := 50 } []).1 ≤
        (calculate_health_score { zeroProfile with saturated_fat := 5 } []).1 ∧
    (calculate_health_score { zeroProfile with trans_fat := 50 } []).1 ≤
        (calculate_health_score { zeroProfile with trans_fat := 5 } []).1 ∧
    (calculate_health_score { zeroProfile with sodium := 50 } []).1 ≤
        (calculate_health_score { zeroProfile with sodium := 5 } []).1 ∧
    (calculate_health_score { zeroProfile with calories := 50 } []).1 ≤
        (calculate_health_score { zeroProfile with calories := 5 } []).1 :=
  score_antitone_in_penalized_nutrients zeroProfile [] 5 50 (by norm_num)

theorem safe_float_getNutriment_nonneg (m : List (String × RawValue)) (k : String)
    (h : ∀ kv ∈ m, rawNonneg kv.2 = true) :
    0 ≤ safe_float (getNutriment m k) := by
  unfold getNutriment
  cases hf : m.find? fun kv => kv.1 == k with
  | none => simp [hf, safe_float]
  | some kv =>
    have hmem : kv ∈ m := List.mem_of_find?_eq_some hf
    have hnn := h kv hmem
    cases hv : kv.2 with
    | null => simp [hf, safe_float, hv]
    | num q =>
      rw [hv] at hnn
      simp only [rawNonneg, decide_eq_true_eq] at hnn
      simpa [hf, safe_float, hv] using hnn
    | nonNumeric => simp [hf, safe_float, hv]

/-- Counterexample to C3 as stated: the raw record
`{'nutriments': {'sugars_100g': -5}}` yields a profile whose `sugars` field
is -5, a negative float — `safe_float` passes convertible values through
without clamping. -/
theorem extract_negative_counterexample :
    (extract_nutrition_facts negativeSugarsProduct).sugars = -5 ∧
      (extract_nutrition_facts negativeSugarsProduct).sugars < 0 := by
  constructor
  · rfl
  · decide

/-- C3 (amended): `extract_nutrition_facts` is total (it never raises: every
conversion failure is caught inside `safe_float`), every fixed nutrient key
is present, 0.0 is substituted for missing, null or non-numeric source
values, and every field is non-negative provided every convertible numeric
value in the raw record is non-negative (a negative source value is passed
through unclamped). -/
theorem extract_fields_present_nonneg (p : RawProduct) (h : NonnegSource p) :
    ∀ q ∈ profileFields (extract_nutrition_facts p), 0 ≤ q := by
  intro q hq
  have hm : ∀ kv ∈ p.nutriments.getD [], rawNonneg kv.2 = true := h
  simp only [profileFields, extract_nutrition_facts, List.mem_cons,
    List.not_mem_nil, or_false] at hq
  rcases hq with rfl | rfl | rfl | rfl | rfl | rfl | rfl | rfl | rfl | rfl |
    rfl | rfl | rfl | rfl | rfl <;>
    exact safe_float_getNutriment_nonneg _ _ hm

/-- Witness for C3 (amended), at a record mixing numeric, null and
non-numeric values. -/
theorem extract_fields_present_nonneg_witness :
    0 ≤ (extract_nutrition_facts sampleProduct).sugars :=
  extract_fields_present_nonneg sampleProduct (by unfold NonnegSource; decide) _
    (by simp [profileFields])

/-- C5: each penalized nutrient contributes the penalty of exactly one tier —
the highest tier of its `Config.NUTRITION_THRESHOLDS` table whose threshold
the value strictly exceeds, 0 when none is exceeded — and these five single
tier penalties plus the capped chemical penalty are exactly what
`calculate_health_score` subtracts (`totalPenalties`). -/
theorem penalties_single_highest_tier (n : NutrientProfile)
    (chems : List FlaggedChemical) :
    IsHighestTierPenalty sugarsTiers n.sugars (tierPenalty sugarsTiers n.sugars) ∧
    IsHighestTierPenalty satFatTiers n.saturated_fat
      (tierPenalty satFatTiers n.saturated_fat) ∧
    IsHighestTierPenalty transFatTiers n.trans_fat
      (tierPenalty transFatTiers n.trans_fat) ∧
    IsHighestTierPenalty sodiumTiers (n.sodium / 1000)
      (tierPenalty sodiumTiers (n.sodium / 1000)) ∧
    IsHighestTierPenalty caloriesTiers n.calories
      (tierPenalty caloriesTiers n.calories) ∧
    totalPenalties n chems =
      tierPenalty sugarsTiers n.sugars + tierPenalty satFatTiers n.saturated_fat
      + tierPenalty transFatTiers n.trans_fat
      + tierPenalty sodiumTiers (n.sodium / 1000)
      + tierPenalty caloriesTiers n.calories + chemicalPenalty chems :=
  ⟨tierPenalty_isHighest _ _ (by norm_num [sugarsTiers, List.pairwise_cons]),
   tierPenalty_isHighest _ _ (by norm_num [satFatTiers, List.pairwise_cons]),
   tierPenalty_isHighest _ _ (by norm_num [transFatTiers, List.pairwise_cons]),
   tierPenalty_isHighest _ _ (by norm_num [sodiumTiers, List.pairwise_cons]),
   tierPenalty_isHighest _ _ (by norm_num [caloriesTiers, List.pairwise_cons]),
   rfl⟩

/-- Counterexample to C2 as stated: src/app.py's `detect_harmful_chemicals`
tests naive substring containment (line 166), so a registered name "gar" is
flagged in ingredient text "cane sugar, sea salt", where it occurs only
inside the unrelated word "sugar". -/
theorem detect_flags_substring_fragment :
    detect_harmful_chemicals [("gar", some garDetails)]
      "cane sugar, sea salt" ≠ [] := by
  decide

theorem backend_not_flag_gar_alt :
    backendDetect [⟨"gar", "gar", "", []⟩, ⟨"alt", "alt", "", []⟩]
      "cane sugar, sea salt" = [] := by
  decide

/-- C2 (amended): the boundary-aware guarantee holds for the backend's regex
matcher, not for src/app.py's substring matcher: whenever the backend flags a
registered name made of word characters, the name occurs in the text with a
non-word character (or the text edge) on both sides — never merely as a
fragment of a longer word. -/
theorem backend_match_is_whole_word (key text : List Char)
    (hne : key ≠ []) (hword : ∀ c ∈ key, isWordChar c = true)
    (hmatch : reWordSearch key text = true) :
    ∃ pre post, text = pre ++ key ++ post ∧
      (∀ c ∈ pre.getLast?, isWordChar c = false) ∧
      (∀ c ∈ post.head?, isWordChar c = false) := by
  unfold reWordSearch at hmatch
  rw [List.any_eq_true] at hmatch
  obtain ⟨i, _, hb⟩ := hmatch
  unfold boundaryMatchAt at hb
  rw [Bool.and_eq_true, Bool.and_eq_true] at hb
  obtain ⟨⟨hpref, hleft⟩, hright⟩ := hb
  obtain ⟨post, hpost⟩ := List.isPrefixOf_iff_prefix.mp hpref
  have hkey_head : wordOpt key.head? = true := by
    cases key with
    | nil => exact absurd rfl hne
    | cons k0 ktl =>
      simp only [List.head?, wordOpt]
      exact hword k0 (List.mem_cons_self _ _)
  have hkey_last : wordOpt key.getLast? = true := by
    rw [List.getLast?_eq_getLast_of_ne_nil hne]
    exact hword _ (List.getLast_mem hne)
  have hleft' : wordOpt (List.take i text).getLast? = false := by
    rw [hkey_head] at hleft
    cases h : wordOpt (List.take i text).getLast?
    · rfl
    · rw [h] at hleft
      simp at hleft
  have hright' : wordOpt (List.drop (i + key.length) text).head? = false := by
    rw [hkey_last] at hright
    cases h : wordOpt (List.drop (i + key.length) text).head?
    · rfl
    · rw [h] at hright
      simp at hright
  have hdrop : List.drop (i + key.length) text = post := by
    have h1 : List.drop key.length (List.drop i text) =
        List.drop (i + key.length) text := List.drop_drop key.length i text
    rw [← h1, ← hpost, List.drop_left]
  refine ⟨List.take i text, post, ?_, ?_, ?_⟩
  · conv_lhs => rw [← List.take_append_drop i text, ← hpost]
    rw [List.append_assoc]
  · intro c hc
    rw [Option.mem_def] at hc
    rw [hc] at hleft'
    simpa [wordOpt] using hleft'
  · intro c hc
    rw [Option.mem_def] at hc
    rw [hdrop] at hright'
    rw [hc] at hright'
    simpa [wordOpt] using hright'

/-- Witness for C2 (amended): the backend matcher flags "msg" in
"water, msg, salt", and indeed "msg" occurs there as a whole word. -/
theorem backend_match_is_whole_word_witness :
    ∃ pre post, "water, msg, salt".data = pre ++ "msg".data ++ post ∧
      (∀ c ∈ pre.getLast?, isWordChar c = false) ∧
      (∀ c ∈ post.head?, isWordChar c = false) :=
  backend_match_is_whole_word "msg".data "water, msg, salt".data (by decide)
    (by decide) (by decide)

/-- C7: for every flagged-chemical list and NutrientProfile,
`generate_disease_warnings` returns an alphabetically sorted list without
duplicates, and the same holds for the backend's `disease_warnings` list:
both are produced as `sorted(list(set))`. -/
theorem disease_warnings_sorted_nodup (chems : List FlaggedChemical)
    (n : NutrientProfile) (db : List BackendChemical) (text : String) :
    ((generate_disease_warnings chems n).Sorted (· ≤ ·) ∧
      (generate_disease_warnings chems n).Nodup) ∧
    ((backendDiseaseWarnings db text).Sorted (· ≤ ·) ∧
      (backendDiseaseWarnings db text).Nodup) := by
  unfold generate_disease_warnings backendDiseaseWarnings
  exact ⟨⟨Finset.sort_sorted _ _, Finset.sort_nodup _ _⟩,
    ⟨Finset.sort_sorted _ _, Finset.sort_nodup _ _⟩⟩

/-- C9: for every ingredient name, every failing outcome of the external FDA
call degrades to a non-raising result with `flagged = false` and either the
empty string or a descriptive message ("FDA API timeout" / "FDA API error:
…"); the backend variant degrades every failure to `(False, "")`. -/
theorem fda_failures_degrade (name : String) (outcome : FdaOutcome)
    (h : isFdaFailure outcome = true) :
    ((check_fda_adverse_events name outcome).1 = false ∧
      ((check_fda_adverse_events name outcome).2 = "" ∨
        (check_fda_adverse_events name outcome).2 = "FDA API timeout" ∨
        ∃ m, (check_fda_adverse_events name outcome).2 = "FDA API error: " ++ m)) ∧
    backend_check_fda name outcome = (false, "") := by
  cases outcome with
  | success t => simp [isFdaFailure] at h
  | timeout =>
    constructor
    · unfold check_fda_adverse_events
      split_ifs
      · exact ⟨rfl, Or.inl rfl⟩
      · exact ⟨rfl, Or.inl rfl⟩
      · exact ⟨rfl, Or.inr (Or.inl rfl)⟩
    · unfold backend_check_fda
      split_ifs <;> rfl
  | requestError m =>
    constructor
    · unfold check_fda_adverse_events
      split_ifs
      · exact ⟨rfl, Or.inl rfl⟩
      · exact ⟨rfl, Or.inl rfl⟩
      · exact ⟨rfl, Or.inr (Or.inr ⟨m, rfl⟩)⟩
    · unfold backend_check_fda
      split_ifs <;> rfl
  | otherError =>
    constructor
    · unfold check_fda_adverse_events
      split_ifs <;> exact ⟨rfl, Or.inl rfl⟩
    · unfold backend_check_fda
      split_ifs <;> rfl

/-- Witness for C9: a timeout looking up "water" yields `(false, "FDA API
timeout")` in the main app and `(False, "")` in the backend. -/
theorem fda_failures_degrade_witness :
    ((check_fda_adverse_events "water" FdaOutcome.timeout).1 = false ∧
      ((check_fda_adverse_events "water" FdaOutcome.timeout).2 = "" ∨
        (check_fda_adverse_events "water" FdaOutcome.timeout).2 = "FDA API timeout" ∨
        ∃ m, (check_fda_adverse_events "water" FdaOutcome.timeout).2 =
          "FDA API error: " ++ m)) ∧
    backend_check_fda "water" FdaOutcome.timeout = (false, "") :=
  fda_failures_degrade "water" FdaOutcome.timeout (by decide)

end CheckTruth
